import Mathlib

/-!
Shallow embedding of the ToolShare reservation core
(`src/main.py`, `src/fix_overlap.py`, `src/migrate_db.py`).

Timestamps are modelled as naturals, SQL rows as structures, tables as
lists of rows, and the stored functions / triggers as Lean functions over
those lists.  Statuses are the literal strings the SQL compares against.
Monetary-free rational arithmetic (`Rat`) models the floating-point trust
score, which is only ever an average of small integers in the source.
-/

namespace ToolShare

/-- A row of the `tools` table (columns used by the core logic). -/
structure Tool where
  tool_id : Nat
  owner_id : Nat
  name : String
  category : String
  status : String
  deriving Repr, DecidableEq

/-- A row of the `reservations` table. -/
structure Reservation where
  reservation_id : Nat
  tool_id : Nat
  borrower_id : Nat
  start_date : Nat
  end_date : Nat
  status : String
  last_updated : Nat
  deriving Repr, DecidableEq

/-- A row of the `ratings` table. -/
structure Rating where
  rating_id : Nat
  reservation_id : Nat
  rater_id : Nat
  rated_user_id : Nat
  score : Int
  comment : String
  deriving Repr, DecidableEq

/-- A row of the `users` table. -/
structure User where
  user_id : Nat
  username : String
  email : String
  password_hash : String
  role : String
  trust_score : Rat
  deriving Repr, DecidableEq

/-- The SQL test `status IN ('pending', 'approved')` — the statuses that count toward
conflict checks. -/
def isActiveStatus (s : String) : Bool :=
  s == "pending" || s == "approved"

/-- The strict-inequality interval test used by both functions installed by
`src/fix_overlap.py`: `start_date < p_end_date AND end_date > p_start_date`
(first interval is the stored row, second the candidate). -/
def overlapsStrict (s1 e1 s2 e2 : Nat) : Bool :=
  decide (s1 < e2) && decide (e1 > s2)

/-- The non-strict interval test of the `check_tool_availability` installed
by `src/migrate_db.py`: `start_date <= p_end_date AND end_date >= p_start_date`. -/
def overlapsNonStrict (s1 e1 s2 e2 : Nat) : Bool :=
  decide (s1 ≤ e2) && decide (e1 ≥ s2)

/-- The `COUNT(*)` taken inside `check_tool_availability`
(`src/fix_overlap.py` version): stored reservations for the tool with an
active status whose interval strictly overlaps the candidate. -/
def conflictCount (rows : List Reservation) (p_tool_id p_start p_end : Nat) : Nat :=
  (rows.filter (fun r =>
    r.tool_id == p_tool_id &&
    isActiveStatus r.status &&
    overlapsStrict r.start_date r.end_date p_start p_end)).length

/-- The function `check_tool_availability` as re-created by `src/fix_overlap.py`
(strict inequalities): returns `true` iff the conflict count is zero. -/
def check_tool_availability (rows : List Reservation) (p_tool_id p_start p_end : Nat) : Bool :=
  conflictCount rows p_tool_id p_start p_end == 0

/-- The `COUNT(*)` taken inside the `check_tool_availability` created by
`src/migrate_db.py` (non-strict inequalities). -/
def conflictCountMigrate (rows : List Reservation) (p_tool_id p_start p_end : Nat) : Nat :=
  (rows.filter (fun r =>
    r.tool_id == p_tool_id &&
    isActiveStatus r.status &&
    overlapsNonStrict r.start_date r.end_date p_start p_end)).length

/-- The function `check_tool_availability` as created by `src/migrate_db.py`
(non-strict inequalities, the drifted copy). -/
def check_tool_availability_migrate (rows : List Reservation) (p_tool_id p_start p_end : Nat) : Bool :=
  conflictCountMigrate rows p_tool_id p_start p_end == 0

/-- Errors raised by `fn_prevent_double_booking` (`RAISE EXCEPTION`
messages 'You cannot reserve your own tool.' and
'This tool is already reserved for the selected dates.'). -/
inductive TriggerError where
  | selfBooking
  | bookingConflict
  deriving Repr, DecidableEq

/-- The lookup `SELECT owner_id FROM tools WHERE tool_id = ...` — `none` models the SQL
NULL produced when no such tool exists. -/
def lookupToolOwner (tools : List Tool) (tid : Nat) : Option Nat :=
  (tools.find? (fun t => t.tool_id == tid)).map (fun t => t.owner_id)

/-- The trigger's conflict `COUNT(*)`: rows of the same tool, with a
different `reservation_id` (the `reservation_id != COALESCE(NEW.reservation_id, 0)`
self-exclusion), active status, and strict overlap with NEW's interval. -/
def triggerConflictCount (rows : List Reservation) (new : Reservation) : Nat :=
  (rows.filter (fun r =>
    r.tool_id == new.tool_id &&
    r.reservation_id != new.reservation_id &&
    isActiveStatus r.status &&
    overlapsStrict r.start_date r.end_date new.start_date new.end_date)).length

/-- The trigger function `fn_prevent_double_booking` (`src/fix_overlap.py`): first the
self-booking check (skipped when the owner lookup yields NULL, since
`NULL = x` is not true in SQL), then the conflict check, else `RETURN NEW`. -/
def fn_prevent_double_booking (tools : List Tool) (rows : List Reservation)
    (new : Reservation) : Except TriggerError Reservation :=
  match lookupToolOwner tools new.tool_id with
  | some owner =>
      if owner == new.borrower_id then
        Except.error TriggerError.selfBooking
      else if triggerConflictCount rows new > 0 then
        Except.error TriggerError.bookingConflict
      else
        Except.ok new
  | none =>
      if triggerConflictCount rows new > 0 then
        Except.error TriggerError.bookingConflict
      else
        Except.ok new

/-- The whole persisted state: the four tables plus the sequences that
generate fresh surrogate ids. -/
structure DB where
  users : List User
  tools : List Tool
  reservations : List Reservation
  ratings : List Rating
  next_reservation_id : Nat
  next_rating_id : Nat
  deriving Repr, DecidableEq

/-- Errors surfaced by the reservation-insert path. -/
inductive BookingError where
  | selfBooking
  | bookingConflict
  | invalidInterval
  deriving Repr, DecidableEq

/-- Modelled from the spec: the `reservations` table's interval validity
constraint (`InvalidInterval (start ≥ end)` in the error taxonomy; the
schema DDL that declares the table is not under `src/`).  In PostgreSQL a
CHECK constraint is validated after BEFORE-ROW triggers run, so it is
tested after `fn_prevent_double_booking`. -/
def intervalCheckOK (r : Reservation) : Bool :=
  decide (r.start_date < r.end_date)

/-- The row `add_reservation` in `src/main.py` inserts:
fresh id, form values, status `'pending'`. -/
def newReservationRow (db : DB) (tool_id borrower_id s e now : Nat) : Reservation :=
  { reservation_id := db.next_reservation_id
    tool_id := tool_id
    borrower_id := borrower_id
    start_date := s
    end_date := e
    status := "pending"
    last_updated := now }

/-- The route `add_reservation` (`src/main.py`): INSERT a `'pending'` row; the
BEFORE-INSERT trigger `fn_prevent_double_booking` may veto it, then the
interval CHECK constraint is validated; any exception rolls the
transaction back (state unchanged, modelled by the error branch). -/
def add_reservation (db : DB) (tool_id borrower_id s e now : Nat) :
    Except BookingError DB :=
  match fn_prevent_double_booking db.tools db.reservations
      (newReservationRow db tool_id borrower_id s e now) with
  | Except.error TriggerError.selfBooking => Except.error BookingError.selfBooking
  | Except.error TriggerError.bookingConflict => Except.error BookingError.bookingConflict
  | Except.ok new2 =>
      if intervalCheckOK new2 then
        Except.ok { db with
          reservations := db.reservations ++ [new2]
          next_reservation_id := db.next_reservation_id + 1 }
      else
        Except.error BookingError.invalidInterval

/-- The state the caller observes after an insert attempt: the new state on
commit, the old state after the `db.rollback()` in the except-branch. -/
def dbAfterBooking (db : DB) (r : Except BookingError DB) : DB :=
  match r with
  | Except.ok db2 => db2
  | Except.error _ => db

/-- The WHERE predicate of `update_reservation_status` (`src/main.py`):
`r.reservation_id = :reservation_id AND EXISTS (SELECT 1 FROM tools t WHERE
t.tool_id = r.tool_id AND (t.owner_id = :user_id OR :is_admin = true))`. -/
def updateRowMatches (tools : List Tool) (rid uid : Nat) (isAdmin : Bool)
    (r : Reservation) : Bool :=
  r.reservation_id == rid &&
  tools.any (fun t => t.tool_id == r.tool_id && (t.owner_id == uid || isAdmin))

/-- The assignment `SET status = :status, last_updated = CURRENT_TIMESTAMP` applied to one
matched row. -/
def setRowStatus (status : String) (now : Nat) (r : Reservation) : Reservation :=
  { r with status := status, last_updated := now }

/-- The row-by-row execution of the UPDATE statement: each matched row is
rewritten and passed through the BEFORE-UPDATE firing of
`fn_prevent_double_booking` (checked against the pre-statement table
`allRows`, the row's old version excluded by the trigger's
`reservation_id != COALESCE(NEW.reservation_id, 0)`); a raise aborts the
whole statement. -/
def updateRows (tools : List Tool) (allRows : List Reservation)
    (rid : Nat) (status : String) (uid now : Nat) (isAdmin : Bool) :
    List Reservation → Except TriggerError (List Reservation)
  | [] => Except.ok []
  | r :: rest =>
      if updateRowMatches tools rid uid isAdmin r then
        match fn_prevent_double_booking tools allRows (setRowStatus status now r) with
        | Except.error e => Except.error e
        | Except.ok r2 =>
            match updateRows tools allRows rid status uid now isAdmin rest with
            | Except.error e => Except.error e
            | Except.ok rest2 => Except.ok (r2 :: rest2)
      else
        match updateRows tools allRows rid status uid now isAdmin rest with
        | Except.error e => Except.error e
        | Except.ok rest2 => Except.ok (r :: rest2)

/-- The route `update_reservation_status` (`src/main.py`): the predicate-guarded
UPDATE; an unauthorized caller simply matches no rows.  Modelled from the
spec where the source is silent: the `CREATE TRIGGER` statement binding
`fn_prevent_double_booking` to `reservations` lives in the schema DDL that
is not under `src/`; the trigger function's self-exclusion by
`NEW.reservation_id` shows it is written to fire on UPDATE as well as
INSERT, matching the spec's table-wide overlap invariant. -/
def update_reservation_status (db : DB) (rid : Nat) (status : String)
    (uid : Nat) (isAdmin : Bool) (now : Nat) : Except TriggerError DB :=
  match updateRows db.tools db.reservations rid status uid now isAdmin db.reservations with
  | Except.error e => Except.error e
  | Except.ok rows => Except.ok { db with reservations := rows }

/-- The route `delete_reservation` (`src/main.py`): `DELETE FROM reservations WHERE
reservation_id = :reservation_id AND (borrower_id = :user_id OR :is_admin = true)`;
the surviving rows are those the predicate does not match. -/
def delete_reservation (db : DB) (rid uid : Nat) (isAdmin : Bool) : DB :=
  { db with reservations := db.reservations.filter (fun r =>
      !(r.reservation_id == rid && (r.borrower_id == uid || isAdmin))) }

/-- Errors surfaced by the rating-insert path. -/
inductive RatingError where
  | invalidScore
  deriving Repr, DecidableEq

/-- All scores the user has received: `SELECT score FROM ratings WHERE
rated_user_id = :uid`. -/
def receivedScores (ratings : List Rating) (uid : Nat) : List Int :=
  (ratings.filter (fun rt => rt.rated_user_id == uid)).map (fun rt => rt.score)

/-- Modelled from the spec: the trust-score recomputation performed by the
`trg_update_user_trust_score` trigger (referenced by `src/main.py` but
defined in the schema DDL outside `src/`): the arithmetic mean of all
scores the rated user has received. -/
def trustAvg (ratings : List Rating) (uid : Nat) : Rat :=
  let scores := receivedScores ratings uid
  ((scores.foldr (· + ·) 0 : Int) : Rat) / (scores.length : Rat)

/-- The row `add_rating` in `src/main.py` inserts. -/
def newRatingRow (db : DB) (reservation_id rater_id rated_user_id : Nat)
    (score : Int) (comment : String) : Rating :=
  { rating_id := db.next_rating_id
    reservation_id := reservation_id
    rater_id := rater_id
    rated_user_id := rated_user_id
    score := score
    comment := comment }

/-- The route `add_rating` (`src/main.py`): INSERT the rating row.  Modelled from the
spec: the `chk_rating_score` CHECK constraint (score in [1,5], whose
violation `src/main.py` catches by name) and the after-insert trust-score
trigger are in the schema DDL outside `src/`. -/
def add_rating (db : DB) (reservation_id rater_id rated_user_id : Nat)
    (score : Int) (comment : String) : Except RatingError DB :=
  if decide (1 ≤ score) && decide (score ≤ 5) then
    Except.ok { db with
      ratings := db.ratings ++
        [newRatingRow db reservation_id rater_id rated_user_id score comment]
      users := db.users.map (fun u =>
        if u.user_id == rated_user_id then
          { u with trust_score :=
              (trustAvg
                (db.ratings ++
                  [newRatingRow db reservation_id rater_id rated_user_id score comment])
                rated_user_id) }
        else u)
      next_rating_id := db.next_rating_id + 1 }
  else
    Except.error RatingError.invalidScore

/-- The state observed after a rating attempt (rollback on error). -/
def dbAfterRating (db : DB) (r : Except RatingError DB) : DB :=
  match r with
  | Except.ok db2 => db2
  | Except.error _ => db

/-- The trust score `src/main.py` would display for a user (`find?` models
the single-row SELECT by unique id). -/
def storedTrust (db : DB) (uid : Nat) : Rat :=
  ((db.users.find? (fun u => u.user_id == uid)).map (fun u => u.trust_score)).getD 0

/-- The session payload `login` (`src/main.py`) builds from the row it
fetches: `user_id, username, role, trust_score` (with the falsy-trust
coercion `float(result[3]) if result[3] else 0.0`). -/
structure SessionUser where
  user_id : Nat
  username : String
  role : String
  trust_score : Rat
  deriving Repr, DecidableEq

/-- The route `login` (`src/main.py`): `SELECT user_id, username, role, trust_score
FROM users WHERE username = :username`; a found row creates a session, a
missing row redirects with an error.  The `password` form field is received
but never used in the query or the comparison. -/
def login (db : DB) (username password : String) : Option SessionUser :=
  match db.users.find? (fun u => u.username == username) with
  | some u =>
      some { user_id := u.user_id
             username := u.username
             role := u.role
             trust_score := if u.trust_score == 0 then 0 else u.trust_score }
  | none => none

/-- States reachable through the core reservation operations, starting from
any state with an empty `reservations` table. -/
inductive Reachable : DB → Prop where
  | init (users : List User) (tools : List Tool) (ratings : List Rating)
      (nres nrat : Nat) :
      Reachable { users := users, tools := tools, reservations := [],
                  ratings := ratings, next_reservation_id := nres,
                  next_rating_id := nrat }
  | create (db db2 : DB) (tool_id borrower_id s e now : Nat)
      (hdb : Reachable db)
      (h : add_reservation db tool_id borrower_id s e now = Except.ok db2) :
      Reachable db2
  | update (db db2 : DB) (rid : Nat) (status : String) (uid : Nat)
      (isAdmin : Bool) (now : Nat) (hdb : Reachable db)
      (h : update_reservation_status db rid status uid isAdmin now = Except.ok db2) :
      Reachable db2
  | delete (db : DB) (rid uid : Nat) (isAdmin : Bool) (hdb : Reachable db) :
      Reachable (delete_reservation db rid uid isAdmin)

/-- Distinct rows (by id) of the same tool that are both active never
strictly overlap. -/
def IdOverlapFree (l : List Reservation) : Prop :=
  ∀ r1 ∈ l, ∀ r2 ∈ l, r1.reservation_id ≠ r2.reservation_id →
    r1.tool_id = r2.tool_id →
    isActiveStatus r1.status = true → isActiveStatus r2.status = true →
    overlapsStrict r1.start_date r1.end_date r2.start_date r2.end_date = false

/-- The inductive invariant: ids are below the sequence value, pairwise
distinct, and active same-tool rows never overlap. -/
def DBInv (db : DB) : Prop :=
  (∀ r ∈ db.reservations, r.reservation_id < db.next_reservation_id) ∧
  (db.reservations.map (fun r => r.reservation_id)).Nodup ∧
  IdOverlapFree db.reservations

/-- A sample tool owned by user 1, used by the concrete scenarios. -/
def sampleTool : Tool :=
  { tool_id := 1, owner_id := 1, name := "drill", category := "power", status := "available" }

/-- A state with one tool and no reservations. -/
def dbEmpty : DB :=
  { users := [], tools := [sampleTool], reservations := [], ratings := [],
    next_reservation_id := 10, next_rating_id := 1 }

/-- State `dbEmpty` after user 2 books `[day 1, day 5)` (reservation A). -/
def dbWithA : DB :=
  dbAfterBooking dbEmpty (add_reservation dbEmpty 1 2 1 5 0)

/-- State `dbEmpty` after user 3 books `[day 5, day 10)` (reservation B alone). -/
def dbWithB : DB :=
  dbAfterBooking dbEmpty (add_reservation dbEmpty 1 3 5 10 0)

/-- A sample user receiving ratings in the trust-score scenario. -/
def sampleRatedUser : User :=
  { user_id := 7, username := "u7", email := "u7@x", password_hash := "pw",
    role := "user", trust_score := 0 }

/-- A state with just the rated user and no ratings. -/
def dbRatings0 : DB :=
  { users := [sampleRatedUser], tools := [], reservations := [], ratings := [],
    next_reservation_id := 1, next_rating_id := 1 }

/-- State `dbRatings0` after ratings 5, 4, 3 are recorded for user 7. -/
def dbRatings3 : DB :=
  let d1 := dbAfterRating dbRatings0 (add_rating dbRatings0 1 2 7 5 "")
  let d2 := dbAfterRating d1 (add_rating d1 2 3 7 4 "")
  dbAfterRating d2 (add_rating d2 3 4 7 3 "")

/-- State `dbRatings3` after a fourth rating of 2. -/
def dbRatings4 : DB :=
  dbAfterRating dbRatings3 (add_rating dbRatings3 4 5 7 2 "")

/-- State `dbEmpty` after A = `[1, 5)` (user 2) and then B = `[5, 10)` (user 3). -/
def dbWithAB : DB :=
  dbAfterBooking dbWithA (add_reservation dbWithA 1 3 5 10 0)

/-- State `dbRatings0` after one rating of 5 for user 7. -/
def dbRatings1 : DB :=
  dbAfterRating dbRatings0 (add_rating dbRatings0 1 2 7 5 "")

/-- The stored row of user 7 after one rating of 5: trust score 5. -/
def ratedAfterOne : User :=
  { user_id := 7, username := "u7", email := "u7@x", password_hash := "pw",
    role := "user", trust_score := 5 }

/- ———————————————————————————— theorems ———————————————————————————— -/

/-- Strict interval overlap is symmetric. -/
theorem overlapsStrict_symm_false {s1 e1 s2 e2 : Nat}
    (h : overlapsStrict s1 e1 s2 e2 = false) :
    overlapsStrict s2 e2 s1 e1 = false := by
  simp only [overlapsStrict, Bool.and_eq_false_iff, decide_eq_false_iff_not] at h ⊢
  omega

/-- A zero trigger conflict count means no other active same-tool row
strictly overlaps the candidate. -/
theorem triggerConflictCount_zero_elim {rows : List Reservation} {new : Reservation}
    (h : triggerConflictCount rows new = 0) :
    ∀ r ∈ rows, r.tool_id = new.tool_id → r.reservation_id ≠ new.reservation_id →
      isActiveStatus r.status = true →
      overlapsStrict r.start_date r.end_date new.start_date new.end_date = false := by
  intro r hr htool hid hact
  unfold triggerConflictCount at h
  rw [List.length_eq_zero, List.filter_eq_nil_iff] at h
  have h2 := h r hr
  cases hovb : overlapsStrict r.start_date r.end_date new.start_date new.end_date with
  | false => rfl
  | true => exact absurd (by simp [htool, hact, hid, hovb]) h2

/-- An overlapping active same-tool row with a different id makes the
trigger conflict count positive. -/
theorem triggerConflictCount_pos {rows : List Reservation} {new : Reservation}
    {r : Reservation} (hr : r ∈ rows) (htool : r.tool_id = new.tool_id)
    (hid : r.reservation_id ≠ new.reservation_id)
    (hact : isActiveStatus r.status = true)
    (hov : overlapsStrict r.start_date r.end_date new.start_date new.end_date = true) :
    0 < triggerConflictCount rows new := by
  unfold triggerConflictCount
  have hmem : r ∈ rows.filter (fun r =>
      r.tool_id == new.tool_id &&
      r.reservation_id != new.reservation_id &&
      isActiveStatus r.status &&
      overlapsStrict r.start_date r.end_date new.start_date new.end_date) :=
    List.mem_filter.mpr ⟨hr, by simp [htool, hid, hact, hov]⟩
  exact List.length_pos.mpr (List.ne_nil_of_mem hmem)

/-- A successful trigger run returns the row unchanged and certifies a zero
conflict count. -/
theorem fn_prevent_ok_elim {tools : List Tool} {rows : List Reservation}
    {new r2 : Reservation}
    (h : fn_prevent_double_booking tools rows new = Except.ok r2) :
    r2 = new ∧ triggerConflictCount rows new = 0 := by
  unfold fn_prevent_double_booking at h
  split at h
  · split_ifs at h with hob hc
    exact ⟨(Except.ok.inj h).symm, by omega⟩
  · split_ifs at h with hc
    exact ⟨(Except.ok.inj h).symm, by omega⟩

/-- A successful insert appends exactly the new pending row, after a clean
trigger run and a valid interval. -/
theorem add_reservation_ok_elim {db db2 : DB} {tool_id borrower_id s e now : Nat}
    (h : add_reservation db tool_id borrower_id s e now = Except.ok db2) :
    db2 = { db with
      reservations := db.reservations ++ [newReservationRow db tool_id borrower_id s e now]
      next_reservation_id := db.next_reservation_id + 1 } ∧
    fn_prevent_double_booking db.tools db.reservations
      (newReservationRow db tool_id borrower_id s e now) =
      Except.ok (newReservationRow db tool_id borrower_id s e now) ∧
    s < e := by
  unfold add_reservation at h
  cases hfn : fn_prevent_double_booking db.tools db.reservations
      (newReservationRow db tool_id borrower_id s e now) with
  | error te => rw [hfn] at h; cases te <;> simp at h
  | ok r2 =>
      obtain ⟨hr2, -⟩ := fn_prevent_ok_elim hfn
      subst hr2
      rw [hfn] at h
      dsimp only at h
      split_ifs at h with hchk
      refine ⟨(Except.ok.inj h).symm, rfl, ?_⟩
      simpa [intervalCheckOK, newReservationRow] using hchk

/-- C5: booking a tool whose owner is the borrower always fails with the
self-booking error, for every interval, and leaves the state unchanged. -/
theorem createReservation_self_booking (db : DB) (tool_id s e now owner : Nat)
    (hlk : lookupToolOwner db.tools tool_id = some owner) :
    add_reservation db tool_id owner s e now = Except.error BookingError.selfBooking ∧
    dbAfterBooking db (add_reservation db tool_id owner s e now) = db := by
  have hfn : fn_prevent_double_booking db.tools db.reservations
      (newReservationRow db tool_id owner s e now) =
      Except.error TriggerError.selfBooking := by
    unfold fn_prevent_double_booking
    rw [show (newReservationRow db tool_id owner s e now).tool_id = tool_id from rfl, hlk]
    simp [newReservationRow]
  have hres : add_reservation db tool_id owner s e now =
      Except.error BookingError.selfBooking := by
    unfold add_reservation
    rw [hfn]
  exact ⟨hres, by rw [hres]; rfl⟩

/-- C5 witness: the concrete owner of the sample tool cannot book it. -/
theorem createReservation_self_booking_witness :
    add_reservation dbEmpty 1 1 2 6 0 = Except.error BookingError.selfBooking ∧
    dbAfterBooking dbEmpty (add_reservation dbEmpty 1 1 2 6 0) = dbEmpty :=
  createReservation_self_booking dbEmpty 1 2 6 0 1 rfl

/-- C7: a score outside `[1, 5]` is rejected with the invalid-score error
and the state is unchanged. -/
theorem recordRating_invalid_score (db : DB) (rid rater rated : Nat)
    (score : Int) (c : String) (h : score < 1 ∨ 5 < score) :
    add_rating db rid rater rated score c = Except.error RatingError.invalidScore ∧
    dbAfterRating db (add_rating db rid rater rated score c) = db := by
  have hres : add_rating db rid rater rated score c =
      Except.error RatingError.invalidScore := by
    unfold add_rating
    have hc : (decide (1 ≤ score) && decide (score ≤ 5)) = false := by
      simp only [Bool.and_eq_false_iff, decide_eq_false_iff_not]
      omega
    rw [hc]
    simp
  exact ⟨hres, by rw [hres]; rfl⟩

/-- C7 witness: a score of 6 is rejected. -/
theorem recordRating_invalid_score_witness :
    add_rating dbRatings0 1 2 7 6 "" = Except.error RatingError.invalidScore ∧
    dbAfterRating dbRatings0 (add_rating dbRatings0 1 2 7 6 "") = dbRatings0 :=
  recordRating_invalid_score dbRatings0 1 2 7 6 "" (Or.inr (by norm_num))

/-- C10: the outcome of `login` does not depend on the supplied password,
and any registered username logs in successfully with any password. -/
theorem login_ignores_password (db : DB) (username p1 p2 : String)
    (h : ∃ u ∈ db.users, u.username = username) :
    login db username p1 = login db username p2 ∧
    (login db username p1).isSome = true := by
  refine ⟨rfl, ?_⟩
  obtain ⟨u, hu, hname⟩ := h
  unfold login
  cases hf : db.users.find? (fun v => v.username == username) with
  | some v => rfl
  | none =>
      exact absurd (by simp [hname]) (List.find?_eq_none.mp hf u hu)

/-- C10 witness: the sample user logs in with two different passwords. -/
theorem login_ignores_password_witness :
    login dbRatings0 "u7" "pw-a" = login dbRatings0 "u7" "pw-b" ∧
    (login dbRatings0 "u7" "pw-a").isSome = true :=
  login_ignores_password dbRatings0 "u7" "pw-a" "pw-b"
    ⟨sampleRatedUser, by simp [dbRatings0], rfl⟩

/-- The UPDATE touches nothing when its predicate matches no row. -/
theorem updateRows_unmatched (tools : List Tool) (allRows : List Reservation)
    (rid : Nat) (status : String) (uid now : Nat) (adm : Bool) (l : List Reservation)
    (h : ∀ r ∈ l, updateRowMatches tools rid uid adm r = false) :
    updateRows tools allRows rid status uid now adm l = Except.ok l := by
  induction l with
  | nil => rfl
  | cons r rest ih =>
      unfold updateRows
      rw [h r (by simp)]
      simp only [Bool.false_eq_true, if_false]
      rw [ih (fun x hx => h x (by simp [hx]))]

/-- C9: a caller who is neither the owning tool's owner nor an admin changes
no row: the state after the call is exactly the state before, with no error. -/
theorem updateReservationStatus_unauthorized (db : DB) (rid : Nat)
    (status : String) (uid now : Nat)
    (hown : ∀ r ∈ db.reservations, r.reservation_id = rid →
      ∀ t ∈ db.tools, t.tool_id = r.tool_id → t.owner_id ≠ uid) :
    update_reservation_status db rid status uid false now = Except.ok db := by
  have hall : ∀ r ∈ db.reservations, updateRowMatches db.tools rid uid false r = false := by
    intro r hr
    unfold updateRowMatches
    by_cases hid : r.reservation_id = rid
    · simp only [hid, beq_self_eq_true, Bool.true_and]
      rw [List.any_eq_false]
      intro t ht
      by_cases htt : t.tool_id = r.tool_id
      · simp [htt, hown r hr hid t ht htt]
      · simp [htt]
    · simp [hid]
  unfold update_reservation_status
  rw [updateRows_unmatched db.tools db.reservations rid status uid now false
    db.reservations hall]

/-- C9 witness: user 9 (not the owner, not admin) cannot change the sample
reservation; the call returns the unchanged state. -/
theorem updateReservationStatus_unauthorized_witness :
    update_reservation_status dbWithA 10 "approved" 9 false 99 = Except.ok dbWithA :=
  updateReservationStatus_unauthorized dbWithA 10 "approved" 9 99 (by decide)

/-- C2: against a single active reservation `[s1, e1)` the availability
check reports a conflict exactly when `s1 < e2 ∧ e1 > s2`; concretely,
A = `[1, 5)` and then the touching B = `[5, 10)` both insert successfully,
while C = `[4, 6)` is rejected with a booking conflict against either. -/
theorem overlap_policy_strict :
    (∀ s1 e1 s2 e2 : Nat,
      check_tool_availability
        [{ reservation_id := 10, tool_id := 1, borrower_id := 2,
           start_date := s1, end_date := e1, status := "pending", last_updated := 0 }]
        1 s2 e2 = false ↔ (s1 < e2 ∧ e1 > s2)) ∧
    (add_reservation dbEmpty 1 2 1 5 0).isOk = true ∧
    (add_reservation dbWithA 1 3 5 10 0).isOk = true ∧
    add_reservation dbWithA 1 3 4 6 0 = Except.error BookingError.bookingConflict ∧
    add_reservation dbWithB 1 2 4 6 0 = Except.error BookingError.bookingConflict := by
  refine ⟨?_, rfl, rfl, rfl, rfl⟩
  intro s1 e1 s2 e2
  simp only [check_tool_availability, conflictCount, List.filter_cons, List.filter_nil,
    isActiveStatus, overlapsStrict]
  by_cases h1 : s1 < e2 <;> by_cases h2 : e1 > s2 <;> simp [h1, h2]

/-- C3 (amended): the fix_overlap.py copy of the availability check and the
trigger's conflict test agree on every state and fresh candidate row —
availability is denied exactly when the trigger would count a conflict;
the migrate_db.py copy is the one that drifts (see the counterexample). -/
theorem availability_check_matches_trigger (rows : List Reservation)
    (new : Reservation) (hfresh : ∀ r ∈ rows, r.reservation_id ≠ new.reservation_id) :
    (check_tool_availability rows new.tool_id new.start_date new.end_date = false ↔
      0 < triggerConflictCount rows new) := by
  have hcc : conflictCount rows new.tool_id new.start_date new.end_date =
      triggerConflictCount rows new := by
    unfold conflictCount triggerConflictCount
    congr 1
    apply List.filter_congr
    intro r hr
    have hb : (r.reservation_id != new.reservation_id) = true := by
      simp [hfresh r hr]
    rw [hb]
    simp
  unfold check_tool_availability
  rw [hcc]
  constructor
  · intro h
    cases h0 : triggerConflictCount rows new with
    | zero => rw [h0] at h; simp at h
    | succ n => omega
  · intro h
    cases h0 : triggerConflictCount rows new with
    | zero => omega
    | succ n => rfl

/-- Counterexample to C3 as stated: on the touching candidate `[5, 10)`
against the active `[1, 5)`, the migrate_db.py copy of
`check_tool_availability` reports unavailability while
`fn_prevent_double_booking` accepts the row — the two cited definitions do
not apply the same boundary policy. -/
theorem availability_migrate_disagrees_trigger :
    check_tool_availability_migrate dbWithA.reservations 1 5 10 = false ∧
    fn_prevent_double_booking dbWithA.tools dbWithA.reservations
      (newReservationRow dbWithA 1 3 5 10 0) =
      Except.ok (newReservationRow dbWithA 1 3 5 10 0) := by
  exact ⟨rfl, rfl⟩

/-- C3 witness: the agreement instantiated on the sample state and the
overlapping candidate `[4, 6)`. -/
theorem availability_check_matches_trigger_witness :
    check_tool_availability dbWithA.reservations
      (newReservationRow dbWithA 1 3 4 6 0).tool_id
      (newReservationRow dbWithA 1 3 4 6 0).start_date
      (newReservationRow dbWithA 1 3 4 6 0).end_date = false ↔
    0 < triggerConflictCount dbWithA.reservations (newReservationRow dbWithA 1 3 4 6 0) :=
  availability_check_matches_trigger dbWithA.reservations
    (newReservationRow dbWithA 1 3 4 6 0) (by decide)

/-- Counterexample to C4 as stated: the owner booking the overlapping
`[2, 6)` over the active `[1, 5)` hits the self-booking check first, so the
call fails with SelfBookingError although a conflicting active reservation
exists. -/
theorem createReservation_conflict_cex :
    0 < conflictCount dbWithA.reservations 1 2 6 ∧
    add_reservation dbWithA 1 1 2 6 0 = Except.error BookingError.selfBooking :=
  ⟨by decide, rfl⟩

/-- C4 (amended): provided the borrower is not the tool's owner, an
overlapping active reservation makes the call fail with the booking
conflict error and leaves the state unchanged; a successful call appends
exactly one reservation row, whose status is pending. -/
theorem createReservation_conflict_checked (db : DB) (tool_id borrower_id s e now : Nat) :
    (∀ owner, lookupToolOwner db.tools tool_id = some owner → owner ≠ borrower_id →
      (∃ r ∈ db.reservations, r.tool_id = tool_id ∧
        r.reservation_id ≠ db.next_reservation_id ∧ isActiveStatus r.status = true ∧
        overlapsStrict r.start_date r.end_date s e = true) →
      add_reservation db tool_id borrower_id s e now =
        Except.error BookingError.bookingConflict ∧
      dbAfterBooking db (add_reservation db tool_id borrower_id s e now) = db) ∧
    (∀ db2, add_reservation db tool_id borrower_id s e now = Except.ok db2 →
      db2.reservations = db.reservations ++
        [newReservationRow db tool_id borrower_id s e now] ∧
      (newReservationRow db tool_id borrower_id s e now).status = "pending") := by
  constructor
  · rintro owner hlk hne ⟨r, hr, htool, hid, hact, hov⟩
    have hcnt : 0 < triggerConflictCount db.reservations
        (newReservationRow db tool_id borrower_id s e now) :=
      triggerConflictCount_pos hr htool hid hact hov
    have hfn : fn_prevent_double_booking db.tools db.reservations
        (newReservationRow db tool_id borrower_id s e now) =
        Except.error TriggerError.bookingConflict := by
      unfold fn_prevent_double_booking
      rw [show (newReservationRow db tool_id borrower_id s e now).tool_id = tool_id
        from rfl, hlk]
      dsimp only
      have hob : (owner == borrower_id) = false := by
        simp [hne]
      rw [show (newReservationRow db tool_id borrower_id s e now).borrower_id = borrower_id
        from rfl, hob]
      simp [hcnt]
    have hres : add_reservation db tool_id borrower_id s e now =
        Except.error BookingError.bookingConflict := by
      unfold add_reservation
      rw [hfn]
    exact ⟨hres, by rw [hres]; rfl⟩
  · intro db2 h
    obtain ⟨hdb2, -, -⟩ := add_reservation_ok_elim h
    subst hdb2
    exact ⟨rfl, rfl⟩

/-- C4 witness: user 3's overlapping `[2, 6)` against the stored `[1, 5)`
is rejected with the booking conflict error and changes nothing. -/
theorem createReservation_conflict_checked_witness :
    add_reservation dbWithA 1 3 2 6 0 = Except.error BookingError.bookingConflict ∧
    dbAfterBooking dbWithA (add_reservation dbWithA 1 3 2 6 0) = dbWithA :=
  (createReservation_conflict_checked dbWithA 1 3 2 6 0).1 1 rfl (by decide)
    ⟨{ reservation_id := 10, tool_id := 1, borrower_id := 2, start_date := 1,
       end_date := 5, status := "pending", last_updated := 0 },
     by decide, rfl, by decide, rfl, rfl⟩

/-- Counterexample to C8 as stated: a call with start 5 ≥ end 3 by the
tool's owner fails with SelfBookingError, not with the invalid-interval
error, because the BEFORE-trigger runs before the CHECK constraint. -/
theorem createReservation_invalid_interval_cex :
    (5 : Nat) ≥ 3 ∧
    add_reservation dbEmpty 1 1 5 3 0 = Except.error BookingError.selfBooking :=
  ⟨by norm_num, rfl⟩

/-- C8 (amended): when the double-booking trigger accepts the row (the
borrower is not the owner and no active conflict exists), a call with
start ≥ end fails with the invalid-interval error and inserts nothing. -/
theorem createReservation_invalid_interval (db : DB) (tool_id borrower_id s e now : Nat)
    (hfn : fn_prevent_double_booking db.tools db.reservations
      (newReservationRow db tool_id borrower_id s e now) =
      Except.ok (newReservationRow db tool_id borrower_id s e now))
    (hse : e ≤ s) :
    add_reservation db tool_id borrower_id s e now =
      Except.error BookingError.invalidInterval ∧
    dbAfterBooking db (add_reservation db tool_id borrower_id s e now) = db := by
  have hres : add_reservation db tool_id borrower_id s e now =
      Except.error BookingError.invalidInterval := by
    unfold add_reservation
    rw [hfn]
    dsimp only
    have hchk : intervalCheckOK (newReservationRow db tool_id borrower_id s e now)
        = false := by
      simp only [intervalCheckOK, newReservationRow, decide_eq_false_iff_not]
      omega
    rw [hchk]
    simp
  exact ⟨hres, by rw [hres]; rfl⟩

/-- C8 witness: user 2's inverted `[5, 3)` on the empty ledger is rejected
as an invalid interval, leaving the state unchanged. -/
theorem createReservation_invalid_interval_witness :
    add_reservation dbEmpty 1 2 5 3 0 = Except.error BookingError.invalidInterval ∧
    dbAfterBooking dbEmpty (add_reservation dbEmpty 1 2 5 3 0) = dbEmpty :=
  createReservation_invalid_interval dbEmpty 1 2 5 3 0 rfl (by norm_num)

/-- C6: after a successful recordRating the stored trust score of the rated
user equals the arithmetic mean of all scores that user has received;
concretely, ratings 5, 4, 3 give exactly 4 and a fourth rating of 2 gives
exactly 7/2. -/
theorem recordRating_trust_mean (db : DB) (rid rater rated : Nat) (score : Int)
    (c : String) :
    (∀ db2, add_rating db rid rater rated score c = Except.ok db2 →
      ∀ u ∈ db2.users, u.user_id = rated → u.trust_score = trustAvg db2.ratings rated) ∧
    storedTrust dbRatings3 7 = 4 ∧ storedTrust dbRatings4 7 = 7 / 2 := by
  refine ⟨?_,
    by simp [storedTrust, dbRatings3, dbRatings0, dbAfterRating, add_rating, newRatingRow,
         trustAvg, receivedScores, sampleRatedUser, List.find?]
       norm_num,
    by simp [storedTrust, dbRatings4, dbRatings3, dbRatings0, dbAfterRating, add_rating,
         newRatingRow, trustAvg, receivedScores, sampleRatedUser, List.find?]
       norm_num⟩
  intro db2 h u hu hid
  unfold add_rating at h
  split_ifs at h with hs
  have hdb2 := (Except.ok.inj h).symm
  subst hdb2
  obtain ⟨v, hv, hvu⟩ := List.mem_map.mp hu
  subst hvu
  cases hvid : (v.user_id == rated) with
  | true => simp [hvid]
  | false =>
      rw [if_neg (by simp [hvid])] at hid
      rw [beq_eq_false_iff_ne] at hvid
      exact absurd hid hvid

/-- A successful UPDATE run keeps the multiset of reservation ids in place. -/
theorem updateRows_ok_ids (tools : List Tool) (allRows : List Reservation)
    (rid : Nat) (status : String) (uid now : Nat) (adm : Bool) :
    ∀ l l2, updateRows tools allRows rid status uid now adm l = Except.ok l2 →
      l2.map (fun r => r.reservation_id) = l.map (fun r => r.reservation_id) := by
  intro l
  induction l with
  | nil =>
      intro l2 h
      rw [← Except.ok.inj h]
  | cons r rest ih =>
      intro l2 h
      unfold updateRows at h
      split_ifs at h with hm
      · cases hfn : fn_prevent_double_booking tools allRows (setRowStatus status now r) with
        | error e => rw [hfn] at h; simp at h
        | ok r2 =>
            rw [hfn] at h
            obtain ⟨hr2, -⟩ := fn_prevent_ok_elim hfn
            subst hr2
            cases hrest : updateRows tools allRows rid status uid now adm rest with
            | error e => rw [hrest] at h; simp at h
            | ok rest2 =>
                rw [hrest] at h
                rw [← Except.ok.inj h]
                simp [setRowStatus, ih rest2 hrest]
      · cases hrest : updateRows tools allRows rid status uid now adm rest with
        | error e => rw [hrest] at h; simp at h
        | ok rest2 =>
            rw [hrest] at h
            rw [← Except.ok.inj h]
            simp [ih rest2 hrest]

/-- Every row of a successful UPDATE's output either was already in the
input, or is a matched row whose rewritten version passed the trigger. -/
theorem updateRows_ok_origin (tools : List Tool) (allRows : List Reservation)
    (rid : Nat) (status : String) (uid now : Nat) (adm : Bool) :
    ∀ l l2, updateRows tools allRows rid status uid now adm l = Except.ok l2 →
      ∀ x ∈ l2, x ∈ l ∨ ∃ r ∈ l, updateRowMatches tools rid uid adm r = true ∧
        x = setRowStatus status now r ∧
        fn_prevent_double_booking tools allRows x = Except.ok x := by
  intro l
  induction l with
  | nil =>
      intro l2 h x hx
      rw [← Except.ok.inj h] at hx
      simp at hx
  | cons r rest ih =>
      intro l2 h x hx
      unfold updateRows at h
      split_ifs at h with hm
      · cases hfn : fn_prevent_double_booking tools allRows (setRowStatus status now r) with
        | error e => rw [hfn] at h; simp at h
        | ok r2 =>
            rw [hfn] at h
            obtain ⟨hr2, -⟩ := fn_prevent_ok_elim hfn
            subst hr2
            cases hrest : updateRows tools allRows rid status uid now adm rest with
            | error e => rw [hrest] at h; simp at h
            | ok rest2 =>
                rw [hrest] at h
                rw [← Except.ok.inj h] at hx
                rcases List.mem_cons.mp hx with hx1 | hx2
                · subst hx1
                  exact Or.inr ⟨r, by simp, hm, rfl, hfn⟩
                · rcases ih rest2 hrest x hx2 with h1 | ⟨r0, hr0, hm0, hx0, hfn0⟩
                  · exact Or.inl (by simp [h1])
                  · exact Or.inr ⟨r0, by simp [hr0], hm0, hx0, hfn0⟩
      · cases hrest : updateRows tools allRows rid status uid now adm rest with
        | error e => rw [hrest] at h; simp at h
        | ok rest2 =>
            rw [hrest] at h
            rw [← Except.ok.inj h] at hx
            rcases List.mem_cons.mp hx with hx1 | hx2
            · exact Or.inl (by simp [hx1])
            · rcases ih rest2 hrest x hx2 with h1 | ⟨r0, hr0, hm0, hx0, hfn0⟩
              · exact Or.inl (by simp [h1])
              · exact Or.inr ⟨r0, by simp [hr0], hm0, hx0, hfn0⟩

/-- A matched row carries the requested reservation id. -/
theorem updateRowMatches_id {tools : List Tool} {rid uid : Nat} {adm : Bool}
    {r : Reservation} (h : updateRowMatches tools rid uid adm r = true) :
    r.reservation_id = rid := by
  unfold updateRowMatches at h
  exact beq_iff_eq.mp (Bool.and_elim_left h)

/-- The inductive invariant holds in every initial state. -/
theorem dbInv_init (users : List User) (tools : List Tool) (ratings : List Rating)
    (nres nrat : Nat) :
    DBInv { users := users, tools := tools, reservations := [], ratings := ratings,
            next_reservation_id := nres, next_rating_id := nrat } := by
  refine ⟨by simp, by simp, ?_⟩
  intro r1 h1
  simp at h1

/-- A successful insert preserves the inductive invariant. -/
theorem dbInv_create {db db2 : DB} {tool_id borrower_id s e now : Nat}
    (h : add_reservation db tool_id borrower_id s e now = Except.ok db2)
    (hinv : DBInv db) : DBInv db2 := by
  obtain ⟨hdb2, hfn, -⟩ := add_reservation_ok_elim h
  subst hdb2
  obtain ⟨hbound, hnodup, hfree⟩ := hinv
  obtain ⟨-, hcnt⟩ := fn_prevent_ok_elim hfn
  refine ⟨?_, ?_, ?_⟩
  · intro r hr
    rcases List.mem_append.mp hr with hr | hr
    · exact Nat.lt_succ_of_lt (hbound r hr)
    · rw [List.mem_singleton.mp hr]
      exact Nat.lt_succ_self _
  · rw [List.map_append, List.nodup_append]
    refine ⟨hnodup, List.nodup_singleton _, ?_⟩
    intro a ha hb
    obtain ⟨r0, hr0, hid0⟩ := List.mem_map.mp ha
    have hax : a = db.next_reservation_id := by simpa using hb
    have := hbound r0 hr0
    omega
  · intro x1 hx1 x2 hx2 hid htool hact1 hact2
    rcases List.mem_append.mp hx1 with h1 | h1 <;>
      rcases List.mem_append.mp hx2 with h2 | h2
    · exact hfree x1 h1 x2 h2 hid htool hact1 hact2
    · rw [List.mem_singleton.mp h2] at hid htool ⊢
      exact triggerConflictCount_zero_elim hcnt x1 h1 htool hid hact1
    · rw [List.mem_singleton.mp h1] at hid htool ⊢
      exact overlapsStrict_symm_false
        (triggerConflictCount_zero_elim hcnt x2 h2 htool.symm (Ne.symm hid) hact2)
    · rw [List.mem_singleton.mp h1, List.mem_singleton.mp h2] at hid
      exact absurd rfl hid

/-- A successful status update preserves the inductive invariant. -/
theorem dbInv_update {db db2 : DB} {rid : Nat} {status : String} {uid : Nat}
    {adm : Bool} {now : Nat}
    (h : update_reservation_status db rid status uid adm now = Except.ok db2)
    (hinv : DBInv db) : DBInv db2 := by
  unfold update_reservation_status at h
  cases hup : updateRows db.tools db.reservations rid status uid now adm
      db.reservations with
  | error e => rw [hup] at h; simp at h
  | ok rows =>
      rw [hup] at h
      rw [← Except.ok.inj h]
      obtain ⟨hbound, hnodup, hfree⟩ := hinv
      have hids := updateRows_ok_ids db.tools db.reservations rid status uid now adm
        db.reservations rows hup
      refine ⟨?_, ?_, ?_⟩
      · intro r hr
        have hmem : r.reservation_id ∈ rows.map (fun r => r.reservation_id) :=
          List.mem_map_of_mem _ hr
        rw [hids] at hmem
        obtain ⟨r0, hr0, hid0⟩ := List.mem_map.mp hmem
        rw [← hid0]
        exact hbound r0 hr0
      · rw [hids]
        exact hnodup
      · intro x1 hx1 x2 hx2 hid htool hact1 hact2
        have ho1 := updateRows_ok_origin db.tools db.reservations rid status uid now adm
          db.reservations rows hup x1 hx1
        have ho2 := updateRows_ok_origin db.tools db.reservations rid status uid now adm
          db.reservations rows hup x2 hx2
        rcases ho1 with h1 | ⟨r1, hr1, hm1, hx1eq, hfn1⟩ <;>
          rcases ho2 with h2 | ⟨r2, hr2, hm2, hx2eq, hfn2⟩
        · exact hfree x1 h1 x2 h2 hid htool hact1 hact2
        · obtain ⟨-, hcnt⟩ := fn_prevent_ok_elim hfn2
          exact triggerConflictCount_zero_elim hcnt x1 h1 htool hid hact1
        · obtain ⟨-, hcnt⟩ := fn_prevent_ok_elim hfn1
          exact overlapsStrict_symm_false
            (triggerConflictCount_zero_elim hcnt x2 h2 htool.symm (Ne.symm hid) hact2)
        · exfalso
          apply hid
          have e1 : x1.reservation_id = r1.reservation_id := by rw [hx1eq]; rfl
          have e2 : x2.reservation_id = r2.reservation_id := by rw [hx2eq]; rfl
          rw [e1, e2, updateRowMatches_id hm1, updateRowMatches_id hm2]

/-- A delete preserves the inductive invariant. -/
theorem dbInv_delete {db : DB} {rid uid : Nat} {adm : Bool}
    (hinv : DBInv db) : DBInv (delete_reservation db rid uid adm) := by
  obtain ⟨hbound, hnodup, hfree⟩ := hinv
  unfold delete_reservation
  refine ⟨?_, ?_, ?_⟩
  · intro r hr
    exact hbound r (List.mem_of_mem_filter hr)
  · exact List.Nodup.sublist ((List.filter_sublist _).map _) hnodup
  · intro x1 hx1 x2 hx2 hid htool hact1 hact2
    exact hfree x1 (List.mem_of_mem_filter hx1) x2 (List.mem_of_mem_filter hx2)
      hid htool hact1 hact2

/-- Every reachable state satisfies the inductive invariant. -/
theorem reachable_dbInv (db : DB) (h : Reachable db) : DBInv db := by
  induction h with
  | init users tools ratings nres nrat => exact dbInv_init users tools ratings nres nrat
  | create db db2 tool_id borrower_id s e now hdb hok ih => exact dbInv_create hok ih
  | update db db2 rid status uid adm now hdb hok ih => exact dbInv_update hok ih
  | delete db rid uid adm hdb ih => exact dbInv_delete ih

/-- C1: in every reachable state, no two distinct reservations of the same
tool that are both active (pending or approved) have strictly overlapping
half-open intervals; the invariant is preserved by reservation insert,
status update and delete. -/
theorem reservations_never_overlap (db : DB) (h : Reachable db) :
    ∀ r1 ∈ db.reservations, ∀ r2 ∈ db.reservations, r1 ≠ r2 →
      r1.tool_id = r2.tool_id → isActiveStatus r1.status = true →
      isActiveStatus r2.status = true →
      overlapsStrict r1.start_date r1.end_date r2.start_date r2.end_date = false := by
  obtain ⟨-, hnodup, hfree⟩ := reachable_dbInv db h
  intro r1 h1 r2 h2 hne htool ha1 ha2
  by_cases hid : r1.reservation_id = r2.reservation_id
  · exact absurd (List.inj_on_of_nodup_map hnodup h1 h2 hid) hne
  · exact hfree r1 h1 r2 h2 hid htool ha1 ha2

/-- C1 witness: in the reachable state holding A = `[1, 5)` and the touching
B = `[5, 10)`, the invariant instance for the two stored rows evaluates to
no overlap. -/
theorem reservations_never_overlap_witness :
    overlapsStrict 1 5 5 10 = false :=
  reservations_never_overlap dbWithAB
    (Reachable.create dbWithA dbWithAB 1 3 5 10 0
      (Reachable.create dbEmpty dbWithA 1 2 1 5 0
        (Reachable.init [] [sampleTool] [] 10 1) rfl) rfl)
    { reservation_id := 10, tool_id := 1, borrower_id := 2, start_date := 1,
      end_date := 5, status := "pending", last_updated := 0 } (by decide)
    { reservation_id := 11, tool_id := 1, borrower_id := 3, start_date := 5,
      end_date := 10, status := "pending", last_updated := 0 } (by decide)
    (by decide) rfl rfl rfl

/-- C6 witness: after the single rating 5, the stored row of user 7 carries
exactly the mean of the ratings table. -/
theorem recordRating_trust_mean_witness :
    ratedAfterOne.trust_score = trustAvg dbRatings1.ratings 7 :=
  (recordRating_trust_mean dbRatings0 1 2 7 5 "").1 dbRatings1 rfl
    ratedAfterOne
    (by simp [dbRatings1, dbRatings0, dbAfterRating, add_rating, newRatingRow,
          trustAvg, receivedScores, sampleRatedUser, ratedAfterOne])
    rfl

end ToolShare
